import Mathlib

/-!
Shallow embedding of the multi-provider image-generation service
(`geminiService`-style module) of the AI-Sweater-Designer repository.

The service is browser TypeScript; its effectful parts (fetch, setTimeout)
are embedded by passing the outcome of each network interaction explicitly
(an oracle per request slot) and by recording the interactions the code
would perform as an explicit event trace (`NetEvent`).  JavaScript
exceptions are embedded as `Except Exn` values, where an `Exn` is the pair
(name, message) of the thrown object; `throw new Error(m)` has name
`"Error"`, and a browser-level fetch rejection has name `"TypeError"`.
JavaScript string truthiness (`""` falsy) is translated explicitly at each
use site.  Loops that are not syntactically bounded are given explicit
fuel; a result of `none` means the loop is still executing after that many
iterations.
-/

/-- A JavaScript exception value: (name, message). -/
abbrev Exn := String × String

/-- One observable network interaction performed by the service. -/
inductive NetEvent where
  | sleep (ms : Nat)
  | request (url : String)
deriving DecidableEq, Repr

/-- `true` exactly on `NetEvent.request`. -/
def NetEvent.isRequest : NetEvent → Bool
  | .request _ => true
  | .sleep _ => false

/-- Number of network requests in a trace. -/
def countRequests (evs : List NetEvent) : Nat :=
  evs.countP NetEvent.isRequest

/-- The `Config` value consumed by the service, restricted to the fields the
service module reads: the selected provider tag, the per-provider key map
(`config.keys`, possibly absent on old configs), the per-provider endpoint
override map (`config.endpoints`), and the optional CORS proxy prefix
(`config.corsProxy`).  Provider tags are runtime strings (TypeScript union
types are erased). -/
structure Config where
  apiProvider : String
  keys : Option (List (String × String))
  endpoints : Option (List (String × String))
  corsProxy : Option String
deriving DecidableEq, Repr

/-- `getApiKey(config, providerOverride?)` of the source: the provider is
`providerOverride || config.apiProvider`; if `config.keys` exists and
`config.keys[provider]` is truthy (present and non-empty) it is returned;
otherwise `process.env.API_KEY || ""` for provider `'gemini'` and `""` for
every other provider.  `env` is `process.env.API_KEY` (`none` = unset). -/
def getApiKey (config : Config) (providerOverride : Option String)
    (env : Option String) : String :=
  let provider :=
    match providerOverride with
    | some p => if p = "" then config.apiProvider else p
    | none => config.apiProvider
  match config.keys with
  | some keys =>
    match keys.lookup provider with
    | some k =>
      if k ≠ "" then k
      else if provider = "gemini" then env.getD "" else ""
    | none => if provider = "gemini" then env.getD "" else ""
  | none => if provider = "gemini" then env.getD "" else ""

/-- Convenience: the effective lookup `config.keys?.[provider]`. -/
def keysLookup (config : Config) (provider : String) : Option String :=
  config.keys.bind (fun ks => ks.lookup provider)

/-! ## The space-hosted (Hugging Face) resolution table and the synchronous
(Gemini) aspect-ratio mapping. -/

/-- The literal lookup table of `formatResForHF` inside
`generateWithHuggingFace`. -/
def hfResMap : List (String × String) :=
  [("1024x1024", "1024x1024 ( 1:1 )"),
   ("864x1152", "864x1152 ( 3:4 )"),
   ("1152x864", "1152x864 ( 4:3 )"),
   ("1248x832", "1248x832 ( 3:2 )"),
   ("832x1248", "832x1248 ( 2:3 )"),
   ("1280x720", "1280x720 ( 16:9 )"),
   ("720x1280", "720x1280 ( 9:16 )"),
   ("1344x576", "1344x576 ( 21:9 )"),
   ("576x1344", "576x1344 ( 9:21 )")]

/-- `formatResForHF(res)`: `map[res] || "1024x1024 ( 1:1 )"`. -/
def formatResForHF (res : String) : String :=
  match hfResMap.lookup res with
  | some v => if v ≠ "" then v else "1024x1024 ( 1:1 )"
  | none => "1024x1024 ( 1:1 )"

/-- `pat` is a prefix of `s` (on character lists). -/
def listHasPrefix : List Char → List Char → Bool
  | [], _ => true
  | _ :: _, [] => false
  | p :: ps, c :: cs => p == c && listHasPrefix ps cs

/-- `pat` occurs somewhere in `s` (on character lists). -/
def listContains (pat : List Char) : List Char → Bool
  | [] => pat.isEmpty
  | c :: cs => listHasPrefix pat (c :: cs) || listContains pat cs

/-- JavaScript `s.includes(pat)`. -/
def jsIncludes (s pat : String) : Bool :=
  listContains pat.toList s.toList

/-- The `aspectRatio` computation at the head of `generateWithGemini`:
an if-chain over `resolution.includes(...)` and equality tests, defaulting
to `"1:1"`. -/
def geminiAspect (resolution : String) : String :=
  if jsIncludes resolution "3:4" || resolution == "864x1152" then "3:4"
  else if jsIncludes resolution "4:3" || resolution == "1152x864" then "4:3"
  else if jsIncludes resolution "16:9" || resolution == "1280x720" then "16:9"
  else if jsIncludes resolution "9:16" || resolution == "720x1280" then "9:16"
  else "1:1"

/-- The Gemini adapter recognizes a resolution when some branch of its
if-chain fires; otherwise it keeps the initial `"1:1"`. -/
def geminiRecognizes (resolution : String) : Bool :=
  jsIncludes resolution "3:4" || resolution == "864x1152" ||
  jsIncludes resolution "4:3" || resolution == "1152x864" ||
  jsIncludes resolution "16:9" || resolution == "1280x720" ||
  jsIncludes resolution "9:16" || resolution == "720x1280"

/-! ## String helpers with JavaScript semantics

Lean's byte-position `String` functions do not reduce definitionally, so
the embedding uses character-list implementations.  All inputs involved
are ASCII, where JavaScript's UTF-16 code-unit indexing and character
indexing agree. -/

/-- JavaScript `s.startsWith(pre)`. -/
def strStartsWith (s pre : String) : Bool :=
  listHasPrefix pre.toList s.toList

/-- JavaScript `s.slice(n)` (drop the first `n` characters). -/
def strDropChars (s : String) (n : Nat) : String :=
  String.mk (s.toList.drop n)

/-- Split a character list on a separator character, JavaScript
`String.prototype.split` semantics (empty input gives one empty part,
a trailing separator gives a trailing empty part). -/
def splitOnChar (sep : Char) : List Char → List (List Char)
  | [] => [[]]
  | c :: cs =>
    let rest := splitOnChar sep cs
    if c == sep then [] :: rest
    else
      match rest with
      | r :: rs => (c :: r) :: rs
      | [] => [[c]]

/-- JavaScript `text.split(sep)` for a one-character separator. -/
def jsSplit (s : String) (sep : Char) : List String :=
  (splitOnChar sep s.toList).map String.mk

/-! ## A model of `JSON.parse`

Numbers are modelled as integers only (a fraction or exponent makes the
parse fail in the model; no claim involves non-integer payloads, and
floating point is out of scope).  Duplicate object keys are kept in order
of appearance and field lookup takes the first occurrence. -/

/-- A parsed JSON value. -/
inductive Json where
  | null
  | bool (b : Bool)
  | num (n : Int)
  | str (s : String)
  | arr (items : List Json)
  | obj (fields : List (String × Json))

/-- The `"` character. -/
def quoteChar : Char := Char.ofNat 34

/-- The `\` character. -/
def backslashChar : Char := Char.ofNat 92

/-- The `{` character. -/
def lbraceChar : Char := Char.ofNat 123

/-- The `}` character. -/
def rbraceChar : Char := Char.ofNat 125

/-- JSON whitespace skipping. -/
def skipWs : List Char → List Char
  | c :: cs =>
    if c == ' ' || c == Char.ofNat 9 || c == Char.ofNat 10 || c == Char.ofNat 13
    then skipWs cs else c :: cs
  | [] => []

/-- The character denoted by a JSON escape (after the backslash), for the
escapes the model supports. -/
def escChar (c : Char) : Option Char :=
  if c == quoteChar then some quoteChar
  else if c == backslashChar then some backslashChar
  else if c == '/' then some '/'
  else if c == 'b' then some (Char.ofNat 8)
  else if c == 'f' then some (Char.ofNat 12)
  else if c == 'n' then some (Char.ofNat 10)
  else if c == 'r' then some (Char.ofNat 13)
  else if c == 't' then some (Char.ofNat 9)
  else none

/-- Parse the body of a JSON string (the opening quote already consumed),
returning the content and the remaining input after the closing quote. -/
def parseJStr : List Char → Option (List Char × List Char)
  | [] => none
  | c :: cs =>
    if c == quoteChar then some ([], cs)
    else if c == backslashChar then
      match cs with
      | e :: cs2 =>
        match escChar e with
        | some ec => (parseJStr cs2).map (fun p => (ec :: p.1, p.2))
        | none => none
      | [] => none
    else (parseJStr cs).map (fun p => (c :: p.1, p.2))

/-- Accumulate a run of decimal digits. -/
def digitsRun (acc : Nat) : List Char → Nat × List Char
  | c :: cs =>
    if c.isDigit then digitsRun (acc * 10 + (c.toNat - 48)) cs else (acc, c :: cs)
  | [] => (acc, [])

/-- Parse at least one decimal digit. -/
def parseDigits : List Char → Option (Nat × List Char)
  | c :: cs => if c.isDigit then some (digitsRun (c.toNat - 48) cs) else none
  | [] => none

mutual

/-- Parse one JSON value (fuel-bounded recursive descent). -/
def parseVal : Nat → List Char → Option (Json × List Char)
  | 0, _ => none
  | fuel + 1, input =>
    match skipWs input with
    | [] => none
    | c :: cs =>
      if c == quoteChar then
        (parseJStr cs).map (fun p => (Json.str (String.mk p.1), p.2))
      else if c == lbraceChar then
        match skipWs cs with
        | c2 :: cs2 =>
          if c2 == rbraceChar then some (Json.obj [], cs2)
          else parseObjFields fuel (c2 :: cs2)
        | [] => none
      else if c == '[' then
        match skipWs cs with
        | c2 :: cs2 =>
          if c2 == ']' then some (Json.arr [], cs2)
          else parseArrElems fuel (c2 :: cs2)
        | [] => none
      else if c == '-' then
        (parseDigits cs).map (fun p => (Json.num (-(p.1 : Int)), p.2))
      else if c.isDigit then
        (parseDigits (c :: cs)).map (fun p => (Json.num (p.1 : Int), p.2))
      else if c == 't' then
        match cs with
        | 'r' :: 'u' :: 'e' :: rest => some (Json.bool true, rest)
        | _ => none
      else if c == 'f' then
        match cs with
        | 'a' :: 'l' :: 's' :: 'e' :: rest => some (Json.bool false, rest)
        | _ => none
      else if c == 'n' then
        match cs with
        | 'u' :: 'l' :: 'l' :: rest => some (Json.null, rest)
        | _ => none
      else none

/-- Parse the elements of a non-empty JSON array (after `[`). -/
def parseArrElems : Nat → List Char → Option (Json × List Char)
  | 0, _ => none
  | fuel + 1, input =>
    match parseVal fuel input with
    | none => none
    | some (v, rest) =>
      match skipWs rest with
      | ',' :: rest2 =>
        match parseArrElems fuel rest2 with
        | some (Json.arr vs, r) => some (Json.arr (v :: vs), r)
        | _ => none
      | c :: rest2 => if c == ']' then some (Json.arr [v], rest2) else none
      | [] => none

/-- Parse the fields of a non-empty JSON object (after `{`). -/
def parseObjFields : Nat → List Char → Option (Json × List Char)
  | 0, _ => none
  | fuel + 1, input =>
    match input with
    | c :: cs =>
      if c == quoteChar then
        match parseJStr cs with
        | some (k, r) =>
          match skipWs r with
          | ':' :: r2 =>
            match parseVal fuel r2 with
            | some (v, r3) =>
              match skipWs r3 with
              | ',' :: r4 =>
                match parseObjFields fuel (skipWs r4) with
                | some (Json.obj fs, rr) =>
                  some (Json.obj ((String.mk k, v) :: fs), rr)
                | _ => none
              | c2 :: r4 =>
                if c2 == rbraceChar then some (Json.obj [(String.mk k, v)], r4)
                else none
              | [] => none
            | none => none
          | _ => none
        | none => none
      else none
    | [] => none

end

/-- The model of `JSON.parse`: parse one value and require only whitespace
to remain. -/
def Json.parse (s : String) : Option Json :=
  match parseVal (s.toList.length + 1) s.toList with
  | some (v, rest) => if (skipWs rest).isEmpty then some v else none
  | none => none

/-- JavaScript truthiness of a JSON value. -/
def jsTruthy : Json → Bool
  | .null => false
  | .bool b => b
  | .num n => n != 0
  | .str s => s != ""
  | .arr _ => true
  | .obj _ => true

/-- JavaScript property access `v[k]` on a parsed JSON value: a field of an
object, `undefined` (`none`) otherwise. -/
def jsField : Json → String → Option Json
  | .obj fields, k => fields.lookup k
  | _, _ => none

/-! ## The event-stream awaiter `pollResult` inside `generateWithHuggingFace` -/

/-- The polling URL `https://tongyi-mai-z-image-turbo.hf.space/call/generate/{id}`. -/
def hfPollUrl (id : String) : String :=
  "https://tongyi-mai-z-image-turbo.hf.space/call/generate/" ++ id

/-- Outcome of one status fetch of the event stream. -/
inductive HFPollOutcome where
  | exn (name msg : String)
  | notOk
  | ok (body : String)

/-- One line of the streamed body, as scanned by the `for` loop of
`pollResult`: `some v` means the loop returns the JavaScript value `v`
(`v = none` is `undefined`), `none` means the line is skipped.  A line is a
hit when it starts with `data: `, its remainder parses as a JSON array,
the first element is truthy and its `image` field is truthy; the returned
value is then `data[0].image.url`. -/
def scanLine (line : String) : Option (Option Json) :=
  if strStartsWith line "event: complete" then none
  else if strStartsWith line "data: " then
    match Json.parse (strDropChars line 6) with
    | some (.arr (d0 :: _)) =>
      if jsTruthy d0 then
        match jsField d0 "image" with
        | some img => if jsTruthy img then some (jsField img "url") else none
        | none => none
      else none
    | _ => none
  else none

/-- First hit of the line scan, in order. -/
def scanLines : List String → Option (Option Json)
  | [] => none
  | l :: ls =>
    match scanLine l with
    | some v => some v
    | none => scanLines ls

/-- What one iteration of the `pollResult` loop does with the outcome of
its fetch: a fetch exception propagates, a non-ok response throws
`"Polling failed"`, a hit in the line scan returns its value, and no hit
falls through to the sleep and the next attempt (`none`). -/
def hfStepOf (o : HFPollOutcome) : Option (Except Exn (Option Json)) :=
  match o with
  | .exn n m => some (.error (n, m))
  | .notOk => some (.error ("Error", "Polling failed"))
  | .ok body =>
    match scanLines (jsSplit body (Char.ofNat 10)) with
    | some v => some (.ok v)
    | none => none

/-- The `pollResult` loop: up to 60 attempts; each attempt fetches the
event stream (`fetches attempts` is the outcome of the fetch of that
attempt) and acts per `hfStepOf`, sleeping 1 s before the next attempt;
after 60 attempts it throws `"Generation timed out"`.  `fuel` bounds the
iterations modelled; the loop is in fact bounded by 60, which the theorems
use. -/
def pollResult (fetches : Nat → HFPollOutcome) (id : String)
    (attempts fuel : Nat) : Option (Except Exn (Option Json)) × List NetEvent :=
  if attempts < 60 then
    match fuel with
    | 0 => (none, [])
    | fuel + 1 =>
      match hfStepOf (fetches attempts) with
      | some r => (some r, [.request (hfPollUrl id)])
      | none =>
        let rec1 := pollResult fetches id (attempts + 1) fuel
        (rec1.1, .request (hfPollUrl id) :: .sleep 1000 :: rec1.2)
  else (some (.error ("Error", "Generation timed out")), [])

/-! ## The ModelScope adapter `generateWithModelScope`

The request payload (prompt, resolution, seed) does not influence control
flow and is not modelled; the outcome of the submission request and of
each polling request is passed explicitly. -/

/-- The parsed body of an ok ModelScope task-status response:
`task_status` and `output_images` may be absent; `raw` is the
re-serialized body used by `JSON.stringify(taskData)` in the failure
message. -/
structure MSTaskData where
  task_status : Option String
  output_images : Option (List String)
  raw : String
deriving DecidableEq, Repr

/-- Outcome of one polling fetch of a ModelScope task. -/
inductive MSPollOutcome where
  | exn (name msg : String)
  | notOk
  | ok (td : MSTaskData)
deriving DecidableEq, Repr

/-- Outcome of the ModelScope submission request. -/
inductive MSSubmitOutcome where
  | exn (name msg : String)
  | notOk (status : Nat) (errText : String)
  | ok (task_id : Option String)
deriving DecidableEq, Repr

/-- Submission endpoint. -/
def msBaseUrl : String :=
  "https://api-inference.modelscope.cn/v1/images/generations"

/-- Task status endpoint. -/
def msTaskBaseUrl (taskId : String) : String :=
  "https://api-inference.modelscope.cn/v1/tasks/" ++ taskId

/-- The user-actionable CORS hint thrown when a fetch-level
`TypeError: Failed to fetch` reaches the adapter's catch block. -/
def msCorsHint : String :=
  "ModelScope 连接被浏览器拦截 (CORS)。请在设置中配置 \x27CORS 代理\x27 (如 https://corsproxy.io/?) 来解决此问题。"

/-- The catch block of `generateWithModelScope`: a `TypeError` with message
`Failed to fetch` is replaced by the CORS hint, every other exception is
rethrown unchanged. -/
def msCatch (r : Except Exn String) : Except Exn String :=
  match r with
  | .error (n, m) =>
    if n = "TypeError" ∧ m = "Failed to fetch" then .error ("Error", msCorsHint)
    else .error (n, m)
  | .ok v => .ok v

/-- What one iteration of the ModelScope polling loop does, as a function
of the fetch outcome. -/
inductive MSStep where
  | done (r : Except Exn String)
  /-- `continue` on `!taskRes.ok`: re-enter the loop WITHOUT incrementing
  `attempts`. -/
  | retrySame
  /-- Fall through to `attempts++`. -/
  | nextCounted
deriving Repr

/-- The body of one ModelScope polling iteration (source lines 307–322):
a fetch exception propagates; a non-ok response hits `continue` (which
skips the `attempts++` at the bottom of the loop); `SUCCEED`/`SUCCEEDED`
returns the first output image or throws if there is none; `FAILED` and
`CANCELED` throw; anything else falls through to `attempts++`. -/
def msStepOf (o : MSPollOutcome) : MSStep :=
  match o with
  | .exn n m => .done (.error (n, m))
  | .notOk => .retrySame
  | .ok td =>
    match td.task_status with
    | some s =>
      if s = "SUCCEED" ∨ s = "SUCCEEDED" then
        match td.output_images with
        | some (img :: _) => .done (.ok img)
        | _ => .done (.error ("Error", "Task succeeded but no images returned."))
      else if s = "FAILED" then
        .done (.error ("Error", "ModelScope task failed: " ++ td.raw))
      else if s = "CANCELED" then
        .done (.error ("Error", "ModelScope task canceled."))
      else .nextCounted
    | none => .nextCounted

/-- The ModelScope polling loop (`while (attempts < 60)`): each iteration
sleeps 2 s then fetches the task status (`polls idx` is the outcome of the
`idx`-th status fetch issued) and acts per `msStepOf`.  After the counter
reaches 60 the loop exits and the adapter throws
`"ModelScope generation timed out."`.  `fuel` bounds the modelled
iterations; `none` means the loop is still running. -/
def msPollLoop (polls : Nat → MSPollOutcome) (taskUrl : String)
    (attempts idx fuel : Nat) : Option (Except Exn String) × List NetEvent :=
  if attempts < 60 then
    match fuel with
    | 0 => (none, [])
    | fuel + 1 =>
      let pre : List NetEvent := [.sleep 2000, .request taskUrl]
      match msStepOf (polls idx) with
      | .done r => (some r, pre)
      | .retrySame =>
        let rec1 := msPollLoop polls taskUrl attempts (idx + 1) fuel
        (rec1.1, pre ++ rec1.2)
      | .nextCounted =>
        let rec1 := msPollLoop polls taskUrl (attempts + 1) (idx + 1) fuel
        (rec1.1, pre ++ rec1.2)
  else (some (.error ("Error", "ModelScope generation timed out.")), [])

/-- The submission URL: `proxy ? proxy + baseUrl : baseUrl`. -/
def msSubmitUrlFor (config : Config) : String :=
  let proxy := config.corsProxy.getD ""
  if proxy ≠ "" then proxy ++ msBaseUrl else msBaseUrl

/-- The polling URL: `proxy ? proxy + taskBaseUrl : taskBaseUrl`. -/
def msTaskUrlFor (config : Config) (taskId : String) : String :=
  let proxy := config.corsProxy.getD ""
  if proxy ≠ "" then proxy ++ msTaskBaseUrl taskId else msTaskBaseUrl taskId

/-- `generateWithModelScope`: resolve the key (missing key throws before
the `try`), build the (possibly proxied) submission URL, submit, then
poll; the surrounding try/catch rewrites a fetch-level
`TypeError: Failed to fetch` into the CORS hint. -/
def generateWithModelScope (config : Config) (env : Option String)
    (submit : MSSubmitOutcome) (polls : Nat → MSPollOutcome) (fuel : Nat) :
    Option (Except Exn String) × List NetEvent :=
  let apiKey := getApiKey config none env
  if apiKey = "" then
    (some (.error ("Error", "ModelScope API Token is missing. Please configure it in Settings.")), [])
  else
    let url := msSubmitUrlFor config
    let run : Option (Except Exn String) × List NetEvent :=
      match submit with
      | .exn n m => (some (.error (n, m)), [.request url])
      | .notOk status errText =>
        (some (.error ("Error", "ModelScope Error (" ++ toString status ++ "): " ++ errText)),
         [.request url])
      | .ok tid =>
        if tid.getD "" = "" then
          (some (.error ("Error", "Failed to start ModelScope task: No task_id returned.")),
           [.request url])
        else
          let p := msPollLoop polls (msTaskUrlFor config (tid.getD "")) 0 0 fuel
          (p.1, .request url :: p.2)
    (run.1.map msCatch, run.2)

/-! ## The Aliyun (Wanx) adapter `generateWithAliyun` -/

/-- One entry of `output.results`. -/
structure AliResultItem where
  url : Option String
deriving DecidableEq, Repr

/-- The `output` object of a DashScope response body. -/
structure AliOutput where
  task_id : Option String
  task_status : Option String
  results : Option (List AliResultItem)
  message : Option String
deriving DecidableEq, Repr

/-- A parsed DashScope response body (`output` may be absent). -/
structure AliTaskData where
  output : Option AliOutput
deriving DecidableEq, Repr

/-- Outcome of one polling fetch of an Aliyun task. -/
inductive AliPollOutcome where
  | exn (name msg : String)
  | notOk
  | ok (td : AliTaskData)
deriving DecidableEq, Repr

/-- Outcome of the Aliyun submission request. -/
inductive AliSubmitOutcome where
  | exn (name msg : String)
  | notOk (status : Nat) (text : String)
  | ok (td : AliTaskData)
deriving DecidableEq, Repr

/-- Submission endpoint. -/
def aliSubmitUrl : String :=
  "https://dashscope.aliyuncs.com/api/v1/services/aigc/text2image/image-synthesis"

/-- Task status endpoint. -/
def aliTaskUrl (taskId : String) : String :=
  "https://dashscope.aliyuncs.com/api/v1/tasks/" ++ taskId

/-- JavaScript template-literal rendering of a possibly-undefined string
(`${undefined}` prints as `"undefined"`). -/
def jsTemplate (o : Option String) : String :=
  o.getD "undefined"

/-- What one iteration of the Aliyun polling loop does, as a function of
the fetch outcome. -/
inductive AliStep where
  | done (r : Except Exn String)
  /-- Fall through to `attempts++`. -/
  | next
deriving Repr

/-- The body of one Aliyun polling iteration (source lines 425–435): a
fetch exception propagates (no try/catch); only an ok response is
inspected: `output?.task_status === 'SUCCEEDED'` with a truthy first
result URL returns it, `'FAILED'` throws with the provider message
(template-literal rendering of `output?.message`); every other case —
a non-ok response, a `CANCELED` status, a `SUCCEEDED` status without a
truthy URL, a missing status — falls through to `attempts++`. -/
def aliStepOf (o : AliPollOutcome) : AliStep :=
  match o with
  | .exn n m => .done (.error (n, m))
  | .notOk => .next
  | .ok td =>
    let status := td.output.bind AliOutput.task_status
    if status = some "SUCCEEDED" then
      match (td.output.bind AliOutput.results).bind List.head? with
      | some item =>
        match item.url with
        | some u => if u ≠ "" then .done (.ok u) else .next
        | none => .next
      | none => .next
    else if status = some "FAILED" then
      .done (.error ("Error",
        "Aliyun task failed: " ++ jsTemplate (td.output.bind AliOutput.message)))
    else .next

/-- The Aliyun polling loop (`while (attempts < 60)`): each iteration
sleeps 2 s, fetches the task status (`polls attempts`), and acts per
`aliStepOf` — every non-returning, non-throwing iteration increments
`attempts`.  After 60 iterations the adapter throws
`"Aliyun generation timed out."`. -/
def aliPollLoop (polls : Nat → AliPollOutcome) (taskUrl : String)
    (attempts fuel : Nat) : Option (Except Exn String) × List NetEvent :=
  if attempts < 60 then
    match fuel with
    | 0 => (none, [])
    | fuel + 1 =>
      let pre : List NetEvent := [.sleep 2000, .request taskUrl]
      match aliStepOf (polls attempts) with
      | .done r => (some r, pre)
      | .next =>
        let rec1 := aliPollLoop polls taskUrl (attempts + 1) fuel
        (rec1.1, pre ++ rec1.2)
  else (some (.error ("Error", "Aliyun generation timed out.")), [])

/-- `generateWithAliyun`: resolve the key, submit, extract
`output?.task_id` (falsy id throws), then poll.  No try/catch: a
fetch-level exception propagates unchanged. -/
def generateWithAliyun (config : Config) (env : Option String)
    (submit : AliSubmitOutcome) (polls : Nat → AliPollOutcome) (fuel : Nat) :
    Option (Except Exn String) × List NetEvent :=
  let apiKey := getApiKey config none env
  if apiKey = "" then (some (.error ("Error", "Aliyun API Key is missing.")), [])
  else
    match submit with
    | .exn n m => (some (.error (n, m)), [.request aliSubmitUrl])
    | .notOk status text =>
      (some (.error ("Error", "Aliyun Error (" ++ toString status ++ "): " ++ text)),
       [.request aliSubmitUrl])
    | .ok td =>
      let taskId := (td.output.bind AliOutput.task_id).getD ""
      if taskId = "" then
        (some (.error ("Error", "Failed to start Aliyun task.")), [.request aliSubmitUrl])
      else
        let p := aliPollLoop polls (aliTaskUrl taskId) 0 fuel
        (p.1, .request aliSubmitUrl :: p.2)

/-! ## The Qiniu / OpenAI-compatible adapter `generateWithOpenAICompatible` -/

/-- One entry of the response `data` array. -/
structure OAIItem where
  b64_json : Option String
  url : Option String
deriving DecidableEq, Repr

/-- Outcome of the single request the adapter issues. -/
inductive OAIOutcome where
  | exn (name msg : String)
  | notOk (status : Nat) (text : String)
  | ok (data : Option (List OAIItem))
deriving DecidableEq, Repr

/-- The default endpoint. -/
def oaiDefaultEndpoint : String := "https://api.openai.com/v1/images/generations"

/-- The effective endpoint:
`config.endpoints?.[config.apiProvider] || default`. -/
def oaiEndpoint (config : Config) : String :=
  let e := (config.endpoints.bind (fun eps => eps.lookup config.apiProvider)).getD ""
  if e ≠ "" then e else oaiDefaultEndpoint

/-- `generateWithOpenAICompatible`: missing key throws; one POST to the
effective endpoint; non-ok throws with status and body; on ok, a truthy
`b64_json` of the first data item yields the
`data:image/png;base64,`-prefixed data URI, else a truthy `url` is
returned, else the adapter throws. -/
def generateWithOpenAICompatible (config : Config) (env : Option String)
    (response : OAIOutcome) : Except Exn String × List NetEvent :=
  let apiKey := getApiKey config none env
  if apiKey = "" then (.error ("Error", "API Key is missing."), [])
  else
    let endpoint := oaiEndpoint config
    match response with
    | .exn n m => (.error (n, m), [.request endpoint])
    | .notOk status text =>
      (.error ("Error", "API Error (" ++ toString status ++ "): " ++ text),
       [.request endpoint])
    | .ok dataOpt =>
      let noImage : Except Exn String := .error ("Error", "No image data returned from API.")
      match dataOpt with
      | some (item :: _) =>
        (if item.b64_json.getD "" ≠ "" then
           .ok ("data:image/png;base64," ++ item.b64_json.getD "")
         else if item.url.getD "" ≠ "" then .ok (item.url.getD "")
         else noImage, [.request endpoint])
      | _ => (noImage, [.request endpoint])

/-! ## The connection verifier `verifyConnection` -/

/-- Outcome of the one authentication-probing call a verification branch
issues: an HTTP status, or a thrown/rejected exception. -/
inductive CallOutcome where
  | ok (status : Nat)
  | exn (name msg : String)
deriving DecidableEq, Repr

/-- `true` exactly on `CallOutcome.exn`. -/
def CallOutcome.isExn : CallOutcome → Bool
  | .exn _ _ => true
  | .ok _ => false

/-- `endpoint.replace(/\x2f$/, '')`: strip one trailing slash. -/
def stripTrailingSlash (s : String) : String :=
  match s.toList.reverse with
  | '/' :: rest => String.mk rest.reverse
  | _ => s

/-- One verification branch: issue the request, interpret the HTTP status
with the branch's status test; the surrounding try/catch of
`verifyConnection` turns an exception into `false`. -/
def probe (transport : String → CallOutcome) (req : String)
    (interp : Nat → Bool) : Bool × List String :=
  ((match transport req with
    | .ok s => interp s
    | .exn _ _ => false), [req])

/-- `verifyConnection(provider, key, endpoint?, proxy?)`: an empty key
returns `false` with no network call; otherwise one provider-specific
request is issued (`transport url` is its outcome — for the Gemini SDK
call, the pseudo-URL `genai:generateContent`) and its status interpreted;
the surrounding try/catch reduces every exception to `false`.  The
returned trace lists the requests issued. -/
def verifyConnection (provider key : String) (endpoint proxy : Option String)
    (transport : String → CallOutcome) : Bool × List String :=
  if key = "" then (false, [])
  else if provider = "gemini" then
    probe transport "genai:generateContent" (fun _ => true)
  else if provider = "huggingface" then
    probe transport "https://huggingface.co/api/whoami-v2" (fun s => s == 200)
  else if provider = "modelscope" then
    let baseUrl := "https://modelscope.cn/api/v1/user/my"
    let p := proxy.getD ""
    probe transport (if p ≠ "" then p ++ baseUrl else baseUrl) (fun s => s == 200)
  else if provider = "nvidia" then
    probe transport "https://api.nvidia.com/v1/genai/stabilityai/stable-diffusion-3.5-large"
      (fun s => s != 401 && s != 403)
  else if provider = "aliyun" then
    probe transport "https://dashscope.aliyuncs.com/api/v1/services/aigc/text2image/image-synthesis"
      (fun s => s != 401 && s != 403)
  else if provider = "qiniu" then
    let e := endpoint.getD ""
    probe transport
      (if e ≠ "" then stripTrailingSlash e ++ "/models" else "https://api.openai.com/v1/models")
      (fun s => s == 200)
  else (false, [])

/-! ## The facade `generateImage` -/

/-- Which adapter the `switch (config.apiProvider)` of `generateImage`
invokes.  The `'gemini'` case and the `default` case share one branch,
which first throws if the key resolved for `config.apiProvider` is falsy
and otherwise calls the Gemini adapter with that key. -/
inductive Dispatch where
  | huggingface
  | modelscope
  | nvidia
  | aliyun
  | qiniu
  | gemini (apiKey : String)
  | err (msg : String)
deriving DecidableEq, Repr

/-- The dispatch performed by `generateImage`. -/
def generateImage (config : Config) (env : Option String) : Dispatch :=
  let apiKey := getApiKey config none env
  if config.apiProvider = "huggingface" then .huggingface
  else if config.apiProvider = "modelscope" then .modelscope
  else if config.apiProvider = "nvidia" then .nvidia
  else if config.apiProvider = "aliyun" then .aliyun
  else if config.apiProvider = "qiniu" then .qiniu
  else
    if apiKey = "" then .err "Google Gemini API Key is missing."
    else .gemini apiKey

/-! ## Concrete inputs used by witnesses and counterexamples -/

/-- Sleep/request pattern of one submit-and-poll iteration, repeated. -/
def pollTrace (u : String) (n : Nat) : List NetEvent :=
  (List.replicate n [NetEvent.sleep 2000, NetEvent.request u]).flatten

/-- Request/sleep pattern of one event-stream attempt, repeated. -/
def hfTrace (id : String) (n : Nat) : List NetEvent :=
  (List.replicate n [NetEvent.request (hfPollUrl id), NetEvent.sleep 1000]).flatten

def cfgGeminiKeyed : Config := Config.mk "gemini" (some [("gemini", "sk")]) none none

def cfgGeminiBare : Config := Config.mk "gemini" (some []) none none

def cfgOther : Config := Config.mk "nvidia" (some []) none none

def cfgQiniu : Config :=
  Config.mk "qiniu" (some [("qiniu", "sk-test")]) (some [("qiniu", "https://proxy.example/v1")]) none

def cfgFooGem : Config := Config.mk "foo" (some [("gemini", "G")]) none none

def cfgGemG : Config := Config.mk "gemini" (some [("gemini", "G")]) none none

def cfgMS : Config := Config.mk "modelscope" (some [("modelscope", "k")]) none none

def cfgMSProxy : Config :=
  Config.mk "modelscope" (some [("modelscope", "k")]) none (some "https://p/")

/-- A ModelScope status body with a non-terminal status. -/
def msPendingTd : MSTaskData := MSTaskData.mk (some "PENDING") none "r"

/-- A ModelScope status body with a `FAILED` status. -/
def msFailedTd : MSTaskData := MSTaskData.mk (some "FAILED") none "rawbody"

/-- A ModelScope status body with a `CANCELED` status. -/
def msCanceledTd : MSTaskData := MSTaskData.mk (some "CANCELED") none "raw2"

/-- An Aliyun status body with a `CANCELED` status. -/
def aliCanceledTd : AliTaskData :=
  AliTaskData.mk (some (AliOutput.mk none (some "CANCELED") none none))

/-- An Aliyun status body with a `FAILED` status and a message. -/
def aliFailedTd : AliTaskData :=
  AliTaskData.mk (some (AliOutput.mk none (some "FAILED") none (some "boom")))

/-- The spec's event-stream example body: an unrelated comment line, then a
`data: ` line whose payload is a one-image JSON array. -/
def hfBody1 : String :=
  "unrelated comment\ndata: [\x7b\"image\":\x7b\"url\":\"https://x/y.png\"\x7d\x7d,123]"

/-- A body with only comment/heartbeat lines. -/
def hfHeartbeatBody : String := ": heartbeat\nevent: complete"

/-! ## Helper lemmas -/

lemma probe_exn (transport : String → CallOutcome) (req : String) (interp : Nat → Bool)
    (h : (transport req).isExn = true) : (probe transport req interp).1 = false := by
  unfold probe
  cases htr : transport req with
  | ok s => rw [htr] at h; simp [CallOutcome.isExn] at h
  | exn n m => simp

lemma aliPollLoop_ge (polls : Nat → AliPollOutcome) (u : String) (attempts fuel : Nat)
    (h : ¬ attempts < 60) :
    aliPollLoop polls u attempts fuel
      = (some (.error ("Error", "Aliyun generation timed out.")), []) := by
  unfold aliPollLoop
  rw [if_neg h]

lemma aliPollLoop_zero (polls : Nat → AliPollOutcome) (u : String) (attempts : Nat)
    (h : attempts < 60) :
    aliPollLoop polls u attempts 0 = (none, []) := by
  unfold aliPollLoop
  rw [if_pos h]

lemma aliPollLoop_succ (polls : Nat → AliPollOutcome) (u : String) (attempts fuel : Nat)
    (h : attempts < 60) :
    aliPollLoop polls u attempts (fuel + 1)
      = (match aliStepOf (polls attempts) with
         | .done r => (some r, [NetEvent.sleep 2000, NetEvent.request u])
         | .next =>
           ((aliPollLoop polls u (attempts + 1) fuel).1,
            [NetEvent.sleep 2000, NetEvent.request u]
              ++ (aliPollLoop polls u (attempts + 1) fuel).2)) := by
  conv_lhs => unfold aliPollLoop
  rw [if_pos h]

lemma msPollLoop_ge (polls : Nat → MSPollOutcome) (u : String) (attempts idx fuel : Nat)
    (h : ¬ attempts < 60) :
    msPollLoop polls u attempts idx fuel
      = (some (.error ("Error", "ModelScope generation timed out.")), []) := by
  unfold msPollLoop
  rw [if_neg h]

lemma msPollLoop_zero (polls : Nat → MSPollOutcome) (u : String) (attempts idx : Nat)
    (h : attempts < 60) :
    msPollLoop polls u attempts idx 0 = (none, []) := by
  unfold msPollLoop
  rw [if_pos h]

lemma msPollLoop_succ (polls : Nat → MSPollOutcome) (u : String) (attempts idx fuel : Nat)
    (h : attempts < 60) :
    msPollLoop polls u attempts idx (fuel + 1)
      = (match msStepOf (polls idx) with
         | .done r => (some r, [NetEvent.sleep 2000, NetEvent.request u])
         | .retrySame =>
           ((msPollLoop polls u attempts (idx + 1) fuel).1,
            [NetEvent.sleep 2000, NetEvent.request u]
              ++ (msPollLoop polls u attempts (idx + 1) fuel).2)
         | .nextCounted =>
           ((msPollLoop polls u (attempts + 1) (idx + 1) fuel).1,
            [NetEvent.sleep 2000, NetEvent.request u]
              ++ (msPollLoop polls u (attempts + 1) (idx + 1) fuel).2)) := by
  conv_lhs => unfold msPollLoop
  rw [if_pos h]

lemma pollTrace_succ (u : String) (n : Nat) :
    pollTrace u (n + 1) = [NetEvent.sleep 2000, NetEvent.request u] ++ pollTrace u n := by
  simp [pollTrace, List.replicate_succ]

lemma countRequests_append (a b : List NetEvent) :
    countRequests (a ++ b) = countRequests a + countRequests b := by
  unfold countRequests
  exact List.countP_append _ _ _

lemma countRequests_pollTrace (u : String) (n : Nat) :
    countRequests (pollTrace u n) = n := by
  induction n with
  | zero => simp [pollTrace, countRequests]
  | succ n ih =>
    rw [pollTrace_succ, countRequests_append, ih]
    simp [countRequests, NetEvent.isRequest]
    omega

lemma aliPollLoop_stepsNext (polls : Nat → AliPollOutcome) (u : String)
    (hp : ∀ i, aliStepOf (polls i) = .next) :
    ∀ fuel attempts, attempts ≤ 60 → 60 - attempts ≤ fuel →
      aliPollLoop polls u attempts fuel
        = (some (.error ("Error", "Aliyun generation timed out.")),
           pollTrace u (60 - attempts)) := by
  intro fuel
  induction fuel with
  | zero =>
    intro attempts h60 hf
    have ha : attempts = 60 := by omega
    subst ha
    rw [aliPollLoop_ge _ _ _ _ (by omega)]
    simp [pollTrace]
  | succ fuel ih =>
    intro attempts h60 hf
    by_cases hlt : attempts < 60
    · have h1 : 60 - attempts = (60 - (attempts + 1)) + 1 := by omega
      rw [aliPollLoop_succ _ _ _ _ hlt, hp attempts, ih (attempts + 1) (by omega) (by omega),
        h1, pollTrace_succ]
    · have ha : attempts = 60 := by omega
      subst ha
      rw [aliPollLoop_ge _ _ _ _ (by omega)]
      simp [pollTrace]

lemma aliPollLoop_count_le (polls : Nat → AliPollOutcome) (u : String) :
    ∀ fuel attempts, countRequests (aliPollLoop polls u attempts fuel).2 ≤ 60 - attempts := by
  intro fuel
  induction fuel with
  | zero =>
    intro attempts
    by_cases hlt : attempts < 60
    · rw [aliPollLoop_zero _ _ _ hlt]
      simp [countRequests]
    · rw [aliPollLoop_ge _ _ _ _ hlt]
      simp [countRequests]
  | succ fuel ih =>
    intro attempts
    by_cases hlt : attempts < 60
    · rw [aliPollLoop_succ _ _ _ _ hlt]
      cases hstep : aliStepOf (polls attempts) with
      | done r =>
        simp [countRequests, NetEvent.isRequest]
        omega
      | next =>
        simp only []
        rw [countRequests_append]
        have := ih (attempts + 1)
        have hpre : countRequests [NetEvent.sleep 2000, NetEvent.request u] = 1 := by
          simp [countRequests, NetEvent.isRequest]
        omega
    · rw [aliPollLoop_ge _ _ _ _ hlt]
      simp [countRequests]

lemma msPollLoop_stepsCounted (polls : Nat → MSPollOutcome) (u : String)
    (hp : ∀ i, msStepOf (polls i) = .nextCounted) :
    ∀ fuel attempts idx, attempts ≤ 60 → 60 - attempts ≤ fuel →
      msPollLoop polls u attempts idx fuel
        = (some (.error ("Error", "ModelScope generation timed out.")),
           pollTrace u (60 - attempts)) := by
  intro fuel
  induction fuel with
  | zero =>
    intro attempts idx h60 hf
    have ha : attempts = 60 := by omega
    subst ha
    rw [msPollLoop_ge _ _ _ _ _ (by omega)]
    simp [pollTrace]
  | succ fuel ih =>
    intro attempts idx h60 hf
    by_cases hlt : attempts < 60
    · have h1 : 60 - attempts = (60 - (attempts + 1)) + 1 := by omega
      rw [msPollLoop_succ _ _ _ _ _ hlt, hp idx,
        ih (attempts + 1) (idx + 1) (by omega) (by omega), h1, pollTrace_succ]
    · have ha : attempts = 60 := by omega
      subst ha
      rw [msPollLoop_ge _ _ _ _ _ (by omega)]
      simp [pollTrace]

lemma msPollLoop_notOk (u : String) :
    ∀ fuel attempts idx, attempts < 60 →
      msPollLoop (fun _ => .notOk) u attempts idx fuel = (none, pollTrace u fuel) := by
  intro fuel
  induction fuel with
  | zero =>
    intro attempts idx h
    rw [msPollLoop_zero _ _ _ _ h]
    simp [pollTrace]
  | succ fuel ih =>
    intro attempts idx h
    rw [msPollLoop_succ _ _ _ _ _ h]
    have hstep : msStepOf ((fun _ => MSPollOutcome.notOk) idx) = .retrySame := rfl
    rw [hstep, ih attempts (idx + 1) h, pollTrace_succ]

lemma msPollLoop_events (polls : Nat → MSPollOutcome) (u : String) :
    ∀ fuel attempts idx, ∀ e ∈ (msPollLoop polls u attempts idx fuel).2,
      e = NetEvent.sleep 2000 ∨ e = NetEvent.request u := by
  intro fuel
  induction fuel with
  | zero =>
    intro attempts idx e he
    by_cases hlt : attempts < 60
    · rw [msPollLoop_zero _ _ _ _ hlt] at he
      simp at he
    · rw [msPollLoop_ge _ _ _ _ _ hlt] at he
      simp at he
  | succ fuel ih =>
    intro attempts idx e he
    by_cases hlt : attempts < 60
    · rw [msPollLoop_succ _ _ _ _ _ hlt] at he
      cases hstep : msStepOf (polls idx) with
      | done r =>
        rw [hstep] at he
        simp at he
        rcases he with h | h <;> simp [h]
      | retrySame =>
        rw [hstep] at he
        simp at he
        rcases he with h | h | h
        · simp [h]
        · simp [h]
        · exact ih attempts (idx + 1) e h
      | nextCounted =>
        rw [hstep] at he
        simp at he
        rcases he with h | h | h
        · simp [h]
        · simp [h]
        · exact ih (attempts + 1) (idx + 1) e h
    · rw [msPollLoop_ge _ _ _ _ _ hlt] at he
      simp at he

lemma generateWithModelScope_poll (config : Config) (env : Option String) (tid : String)
    (polls : Nat → MSPollOutcome) (fuel : Nat)
    (hkey : getApiKey config none env ≠ "") (htid : tid ≠ "") :
    generateWithModelScope config env (.ok (some tid)) polls fuel
      = ((msPollLoop polls (msTaskUrlFor config tid) 0 0 fuel).1.map msCatch,
         .request (msSubmitUrlFor config)
           :: (msPollLoop polls (msTaskUrlFor config tid) 0 0 fuel).2) := by
  unfold generateWithModelScope
  rw [if_neg hkey]
  simp [htid]

lemma msStepOf_failed (td : MSTaskData) (h : td.task_status = some "FAILED") :
    msStepOf (.ok td) = .done (.error ("Error", "ModelScope task failed: " ++ td.raw)) := by
  unfold msStepOf
  simp [h]

lemma msStepOf_canceled (td : MSTaskData) (h : td.task_status = some "CANCELED") :
    msStepOf (.ok td) = .done (.error ("Error", "ModelScope task canceled.")) := by
  unfold msStepOf
  simp [h]

lemma aliStepOf_failed (td : AliTaskData)
    (h : td.output.bind AliOutput.task_status = some "FAILED") :
    aliStepOf (.ok td)
      = .done (.error ("Error",
          "Aliyun task failed: " ++ jsTemplate (td.output.bind AliOutput.message))) := by
  unfold aliStepOf
  simp [h]

lemma aliStepOf_canceled (td : AliTaskData)
    (h : td.output.bind AliOutput.task_status = some "CANCELED") :
    aliStepOf (.ok td) = .next := by
  unfold aliStepOf
  simp [h]

lemma pollResult_ge (fetches : Nat → HFPollOutcome) (id : String) (attempts fuel : Nat)
    (h : ¬ attempts < 60) :
    pollResult fetches id attempts fuel
      = (some (.error ("Error", "Generation timed out")), []) := by
  unfold pollResult
  rw [if_neg h]

lemma pollResult_succ (fetches : Nat → HFPollOutcome) (id : String) (attempts fuel : Nat)
    (h : attempts < 60) :
    pollResult fetches id attempts (fuel + 1)
      = (match hfStepOf (fetches attempts) with
         | some r => (some r, [NetEvent.request (hfPollUrl id)])
         | none =>
           ((pollResult fetches id (attempts + 1) fuel).1,
            NetEvent.request (hfPollUrl id) :: NetEvent.sleep 1000
              :: (pollResult fetches id (attempts + 1) fuel).2)) := by
  conv_lhs => unfold pollResult
  rw [if_pos h]

lemma hfTrace_succ (id : String) (n : Nat) :
    hfTrace id (n + 1)
      = NetEvent.request (hfPollUrl id) :: NetEvent.sleep 1000 :: hfTrace id n := by
  simp [hfTrace, List.replicate_succ]

lemma pollResult_noHit (fetches : Nat → HFPollOutcome) (id : String)
    (hp : ∀ i, hfStepOf (fetches i) = none) :
    ∀ fuel attempts, attempts ≤ 60 → 60 - attempts ≤ fuel →
      pollResult fetches id attempts fuel
        = (some (.error ("Error", "Generation timed out")), hfTrace id (60 - attempts)) := by
  intro fuel
  induction fuel with
  | zero =>
    intro attempts h60 hf
    have ha : attempts = 60 := by omega
    subst ha
    rw [pollResult_ge _ _ _ _ (by omega)]
    simp [hfTrace]
  | succ fuel ih =>
    intro attempts h60 hf
    by_cases hlt : attempts < 60
    · have h1 : 60 - attempts = (60 - (attempts + 1)) + 1 := by omega
      rw [pollResult_succ _ _ _ _ hlt, hp attempts,
        ih (attempts + 1) (by omega) (by omega), h1, hfTrace_succ]
    · have ha : attempts = 60 := by omega
      subst ha
      rw [pollResult_ge _ _ _ _ (by omega)]
      simp [hfTrace]

/-! ## Claim theorems -/

/-- C1 counterexample: a ModelScope generation whose every status fetch
returns a non-ok response keeps polling past the claimed 60-attempt
budget: after 100 loop iterations the call has issued 101 requests
(1 submission + 100 polls) and has neither timed out nor produced a
result, because the `continue` on `!taskRes.ok` skips the `attempts++`. -/
theorem C1_counterexample :
    (generateWithModelScope cfgMS none (.ok (some "t")) (fun _ => .notOk) 100).1 = none
    ∧ countRequests (generateWithModelScope cfgMS none (.ok (some "t")) (fun _ => .notOk) 100).2
        = 101 := by
  rw [generateWithModelScope_poll cfgMS none "t" (fun _ => .notOk) 100 (by decide) (by decide)]
  rw [msPollLoop_notOk _ 100 0 0 (by omega)]
  constructor
  · rfl
  · show countRequests
      (NetEvent.request (msSubmitUrlFor cfgMS) :: pollTrace (msTaskUrlFor cfgMS "t") 100) = 101
    have hsplit :
        NetEvent.request (msSubmitUrlFor cfgMS) :: pollTrace (msTaskUrlFor cfgMS "t") 100
          = [NetEvent.request (msSubmitUrlFor cfgMS)] ++ pollTrace (msTaskUrlFor cfgMS "t") 100 :=
      rfl
    rw [hsplit, countRequests_append, countRequests_pollTrace]
    rfl

/-- C1 amended: the Aliyun poll loop issues at most 60 status fetches and,
when every response steps past (including non-ok responses, which consume
an attempt there), times out after exactly 60 fetches each preceded by a
2-second sleep; the ModelScope loop times out after exactly 60 fetches
when every response is ok with a non-terminal status, but a non-ok
response is retried WITHOUT consuming an attempt (that attempt is skipped
and polling continues), so with persistently non-ok responses the fetch
count is unbounded (`n` fetches after `n` iterations, no timeout).  A
fetch-level exception is not tolerated by either loop (it propagates, see
C8 for ModelScope). -/
theorem C1_poll_budget
    (u : String) (fuel n attempts idx : Nat)
    (pollsAny : Nat → AliPollOutcome)
    (pollsA : Nat → AliPollOutcome) (hA : ∀ i, aliStepOf (pollsA i) = .next)
    (pollsM : Nat → MSPollOutcome) (hM : ∀ i, msStepOf (pollsM i) = .nextCounted)
    (pollsSkip : Nat → MSPollOutcome) (hskip : pollsSkip idx = .notOk)
    (hfuel : 60 ≤ fuel) (hatt : attempts < 60) :
    countRequests (aliPollLoop pollsAny u 0 fuel).2 ≤ 60
    ∧ aliPollLoop pollsA u 0 fuel
        = (some (.error ("Error", "Aliyun generation timed out.")), pollTrace u 60)
    ∧ msPollLoop pollsM u 0 0 fuel
        = (some (.error ("Error", "ModelScope generation timed out.")), pollTrace u 60)
    ∧ msPollLoop pollsSkip u attempts idx (fuel + 1)
        = ((msPollLoop pollsSkip u attempts (idx + 1) fuel).1,
           [NetEvent.sleep 2000, NetEvent.request u]
             ++ (msPollLoop pollsSkip u attempts (idx + 1) fuel).2)
    ∧ msPollLoop (fun _ => .notOk) u 0 0 n = (none, pollTrace u n) := by
  refine ⟨?_, ?_, ?_, ?_, ?_⟩
  · have := aliPollLoop_count_le pollsAny u fuel 0
    omega
  · have := aliPollLoop_stepsNext pollsA u hA fuel 0 (by omega) (by omega)
    simpa using this
  · have := msPollLoop_stepsCounted pollsM u hM fuel 0 0 (by omega) (by omega)
    simpa using this
  · rw [msPollLoop_succ _ _ _ _ _ hatt, hskip]
    rfl
  · exact msPollLoop_notOk u n 0 0 (by omega)

/-- Witness for C1. -/
theorem C1_witness :
    countRequests (aliPollLoop (fun _ => .notOk) "u" 0 60).2 ≤ 60
    ∧ aliPollLoop (fun _ => .notOk) "u" 0 60
        = (some (.error ("Error", "Aliyun generation timed out.")), pollTrace "u" 60)
    ∧ msPollLoop (fun _ => .ok msPendingTd) "u" 0 0 60
        = (some (.error ("Error", "ModelScope generation timed out.")), pollTrace "u" 60)
    ∧ msPollLoop (fun _ => .notOk) "u" 0 0 (60 + 1)
        = ((msPollLoop (fun _ => .notOk) "u" 0 1 60).1,
           [NetEvent.sleep 2000, NetEvent.request "u"]
             ++ (msPollLoop (fun _ => .notOk) "u" 0 1 60).2)
    ∧ msPollLoop (fun _ => .notOk) "u" 0 0 3 = (none, pollTrace "u" 3) :=
  C1_poll_budget "u" 60 3 0 0 (fun _ => .notOk) (fun _ => .notOk) (fun _ => rfl)
    (fun _ => .ok msPendingTd) (fun _ => rfl) (fun _ => .notOk) rfl (by omega) (by omega)

/-- C2: for every provider, `getApiKey` (the spec's `resolveCredential`)
returns the explicitly configured per-provider key when present and
non-empty; otherwise the environment fallback exactly when the provider is
`gemini`, and `""` for every other provider.  Being a total pure Lean
function, it never throws and has no side effects. -/
theorem C2_resolveCredential_spec (config : Config) (env : Option String) :
    (∀ k, keysLookup config config.apiProvider = some k → k ≠ "" →
      getApiKey config none env = k)
    ∧ ((keysLookup config config.apiProvider).getD "" = "" →
      getApiKey config none env =
        if config.apiProvider = "gemini" then env.getD "" else "") := by
  constructor
  · intro k hk hne
    unfold getApiKey keysLookup at *
    cases hc : config.keys with
    | none => simp [hc] at hk
    | some ks =>
      simp [hc] at hk ⊢
      rw [hk]
      simp [hne]
  · intro h
    unfold getApiKey keysLookup at *
    cases hc : config.keys with
    | none => simp [hc]
    | some ks =>
      simp [hc] at h ⊢
      cases hl : ks.lookup config.apiProvider with
      | none => simp [hl]
      | some k =>
        rw [hl] at h
        simp at h
        simp [hl, h]

/-- Witness for C2. -/
theorem C2_witness :
    (getApiKey cfgGeminiKeyed none (some "envk") = "sk")
    ∧ (getApiKey cfgGeminiBare none (some "envk")
        = if cfgGeminiBare.apiProvider = "gemini" then (some "envk").getD "" else "")
    ∧ (getApiKey cfgOther none (some "envk")
        = if cfgOther.apiProvider = "gemini" then (some "envk").getD "" else "") :=
  ⟨(C2_resolveCredential_spec cfgGeminiKeyed (some "envk")).1 "sk" (by decide) (by decide),
   (C2_resolveCredential_spec cfgGeminiBare (some "envk")).2 (by decide),
   (C2_resolveCredential_spec cfgOther (some "envk")).2 (by decide)⟩

/-- C3: `verifyConnection` with an empty credential returns `false` with an
empty request trace (no network call); and for every provider, when the
transport only raises exceptions, the result is `false` (exceptions are
caught, never propagated — the function is total into `Bool`). -/
theorem C3_verifyConnection (provider key : String) (endpoint proxy : Option String)
    (transport : String → CallOutcome) :
    (verifyConnection provider "" endpoint proxy transport = (false, []))
    ∧ ((∀ u, (transport u).isExn = true) →
        (verifyConnection provider key endpoint proxy transport).1 = false) := by
  constructor
  · unfold verifyConnection
    simp
  · intro hexn
    unfold verifyConnection
    by_cases hk : key = ""
    · simp [hk]
    · rw [if_neg hk]
      split_ifs <;> first | rfl | exact probe_exn _ _ _ (hexn _)

/-- Witness for C3. -/
theorem C3_witness :
    (verifyConnection "modelscope" "" none none (fun _ => .ok 200) = (false, []))
    ∧ (verifyConnection "modelscope" "k" none none
        (fun _ => .exn "TypeError" "Failed to fetch")).1 = false :=
  ⟨(C3_verifyConnection "modelscope" "k" none none (fun _ => .ok 200)).1,
   (C3_verifyConnection "modelscope" "k" none none
      (fun _ => .exn "TypeError" "Failed to fetch")).2 (fun _ => rfl)⟩

/-- C4 counterexample: an Aliyun generation whose every status response
carries `task_status = "CANCELED"` does NOT fail immediately — it polls
through all 60 attempts (60 status fetches) and ends in the generic
timeout error, not a cancel failure with the provider's message. -/
theorem C4_counterexample :
    aliPollLoop (fun _ => .ok aliCanceledTd) "u" 0 60
      = (some (.error ("Error", "Aliyun generation timed out.")), pollTrace "u" 60)
    ∧ countRequests (aliPollLoop (fun _ => .ok aliCanceledTd) "u" 0 60).2 = 60 := by
  have h := aliPollLoop_stepsNext (fun _ => .ok aliCanceledTd) "u"
    (fun _ => aliStepOf_canceled aliCanceledTd rfl) 60 0 (by omega) (by omega)
  simp only [Nat.sub_zero] at h
  exact ⟨h, by rw [h]; exact countRequests_pollTrace "u" 60⟩

/-- C4 amended: ModelScope fails immediately — after exactly one further
status fetch — on a terminal `FAILED` status (with the provider's
stringified payload) and on a terminal `CANCELED` status; Aliyun fails
immediately on `FAILED` with the provider's message, but a `CANCELED`
status is NOT terminal for Aliyun: the iteration falls through to
`attempts++` and polling continues. -/
theorem C4_terminal_statuses
    (u : String) (attempts idx fuel : Nat) (hatt : attempts < 60)
    (pollsMF : Nat → MSPollOutcome) (tdF : MSTaskData)
    (hMF : pollsMF idx = .ok tdF) (hFstat : tdF.task_status = some "FAILED")
    (pollsMC : Nat → MSPollOutcome) (tdC : MSTaskData)
    (hMC : pollsMC idx = .ok tdC) (hCstat : tdC.task_status = some "CANCELED")
    (pollsAF : Nat → AliPollOutcome) (tdAF : AliTaskData)
    (hAF : pollsAF attempts = .ok tdAF)
    (hAFstat : tdAF.output.bind AliOutput.task_status = some "FAILED")
    (pollsAC : Nat → AliPollOutcome) (tdAC : AliTaskData)
    (hAC : pollsAC attempts = .ok tdAC)
    (hACstat : tdAC.output.bind AliOutput.task_status = some "CANCELED") :
    msPollLoop pollsMF u attempts idx (fuel + 1)
      = (some (.error ("Error", "ModelScope task failed: " ++ tdF.raw)),
         [NetEvent.sleep 2000, NetEvent.request u])
    ∧ msPollLoop pollsMC u attempts idx (fuel + 1)
      = (some (.error ("Error", "ModelScope task canceled.")),
         [NetEvent.sleep 2000, NetEvent.request u])
    ∧ aliPollLoop pollsAF u attempts (fuel + 1)
      = (some (.error ("Error",
           "Aliyun task failed: " ++ jsTemplate (tdAF.output.bind AliOutput.message))),
         [NetEvent.sleep 2000, NetEvent.request u])
    ∧ aliPollLoop pollsAC u attempts (fuel + 1)
      = ((aliPollLoop pollsAC u (attempts + 1) fuel).1,
         [NetEvent.sleep 2000, NetEvent.request u]
           ++ (aliPollLoop pollsAC u (attempts + 1) fuel).2) := by
  refine ⟨?_, ?_, ?_, ?_⟩
  · rw [msPollLoop_succ _ _ _ _ _ hatt, hMF, msStepOf_failed tdF hFstat]
  · rw [msPollLoop_succ _ _ _ _ _ hatt, hMC, msStepOf_canceled tdC hCstat]
  · rw [aliPollLoop_succ _ _ _ _ hatt, hAF, aliStepOf_failed tdAF hAFstat]
  · rw [aliPollLoop_succ _ _ _ _ hatt, hAC, aliStepOf_canceled tdAC hACstat]

/-- Witness for C4. -/
theorem C4_witness :
    msPollLoop (fun _ => .ok msFailedTd) "u" 0 0 (59 + 1)
      = (some (.error ("Error", "ModelScope task failed: " ++ msFailedTd.raw)),
         [NetEvent.sleep 2000, NetEvent.request "u"])
    ∧ msPollLoop (fun _ => .ok msCanceledTd) "u" 0 0 (59 + 1)
      = (some (.error ("Error", "ModelScope task canceled.")),
         [NetEvent.sleep 2000, NetEvent.request "u"])
    ∧ aliPollLoop (fun _ => .ok aliFailedTd) "u" 0 (59 + 1)
      = (some (.error ("Error",
           "Aliyun task failed: " ++ jsTemplate (aliFailedTd.output.bind AliOutput.message))),
         [NetEvent.sleep 2000, NetEvent.request "u"])
    ∧ aliPollLoop (fun _ => .ok aliCanceledTd) "u" 0 (59 + 1)
      = ((aliPollLoop (fun _ => .ok aliCanceledTd) "u" (0 + 1) 59).1,
         [NetEvent.sleep 2000, NetEvent.request "u"]
           ++ (aliPollLoop (fun _ => .ok aliCanceledTd) "u" (0 + 1) 59).2) :=
  C4_terminal_statuses "u" 0 0 59 (by omega)
    (fun _ => .ok msFailedTd) msFailedTd rfl rfl
    (fun _ => .ok msCanceledTd) msCanceledTd rfl rfl
    (fun _ => .ok aliFailedTd) aliFailedTd rfl rfl
    (fun _ => .ok aliCanceledTd) aliCanceledTd rfl rfl

/-- C5: a line that lacks the `data: ` prefix is skipped, a `data: ` line
whose remainder fails to parse as JSON is skipped; the spec's example body
(comment line + image line) yields `"https://x/y.png"` on the first
attempt, and a body with only comment/heartbeat lines runs through all 60
one-second attempts and ends in the `"Generation timed out"` failure. -/
theorem C5_event_stream (line : String) :
    (strStartsWith line "data: " = false → scanLine line = none)
    ∧ (Json.parse (strDropChars line 6) = none → scanLine line = none)
    ∧ scanLines (jsSplit hfBody1 (Char.ofNat 10)) = some (some (.str "https://x/y.png"))
    ∧ pollResult (fun _ => .ok hfBody1) "e" 0 60
        = (some (.ok (some (.str "https://x/y.png"))), [.request (hfPollUrl "e")])
    ∧ pollResult (fun _ => .ok hfHeartbeatBody) "e" 0 60
        = (some (.error ("Error", "Generation timed out")), hfTrace "e" 60) := by
  refine ⟨?_, ?_, ?_, ?_, ?_⟩
  · intro h
    unfold scanLine
    split_ifs with h1 h2
    · rfl
    · rw [h] at h2
      simp at h2
    · rfl
  · intro h
    unfold scanLine
    split_ifs with h1 h2
    · rfl
    · rw [h]
    · rfl
  · rfl
  · rfl
  · have h := pollResult_noHit (fun _ => .ok hfHeartbeatBody) "e" (fun _ => rfl) 60 0
      (by omega) (by omega)
    simpa using h

/-- Witness for C5. -/
theorem C5_witness :
    (strStartsWith "xyz" "data: " = false ∧ scanLine "xyz" = none)
    ∧ (Json.parse (strDropChars "data: nope" 6) = none ∧ scanLine "data: nope" = none)
    ∧ scanLines (jsSplit hfBody1 (Char.ofNat 10)) = some (some (.str "https://x/y.png")) :=
  ⟨⟨by decide, (C5_event_stream "xyz").1 (by decide)⟩,
   ⟨by rfl, (C5_event_stream "data: nope").2.1 (by rfl)⟩,
   (C5_event_stream "x").2.2.1⟩

/-- C6: a resolution outside the space-hosted adapter's table formats to
`"1024x1024 ( 1:1 )"`, and a resolution that fires no branch of the Gemini
adapter's if-chain maps to aspect ratio `"1:1"`; both functions are total
(no lookup error). -/
theorem C6_resolution_fallback (res : String) :
    (hfResMap.lookup res = none → formatResForHF res = "1024x1024 ( 1:1 )")
    ∧ (geminiRecognizes res = false → geminiAspect res = "1:1") := by
  constructor
  · intro h
    unfold formatResForHF
    rw [h]
  · intro h
    unfold geminiRecognizes at h
    unfold geminiAspect
    simp only [Bool.or_eq_false_iff, beq_eq_false_iff_ne] at h
    obtain ⟨⟨⟨⟨⟨⟨⟨h1, h2⟩, h3⟩, h4⟩, h5⟩, h6⟩, h7⟩, h8⟩ := h
    simp [h1, h2, h3, h4, h5, h6, h7, h8]

/-- Witness for C6. -/
theorem C6_witness :
    (hfResMap.lookup "999x999" = none ∧ formatResForHF "999x999" = "1024x1024 ( 1:1 )")
    ∧ (geminiRecognizes "999x999" = false ∧ geminiAspect "999x999" = "1:1") :=
  ⟨⟨by decide, (C6_resolution_fallback "999x999").1 (by decide)⟩,
   ⟨by decide, (C6_resolution_fallback "999x999").2 (by decide)⟩⟩

/-- C7: for the OpenAI-compatible provider, a truthy `b64_json` on the
first data item yields the `data:image/png;base64,`-prefixed data URI, a
truthy `url` is returned when `b64_json` is falsy, the call fails when
neither is present, and the single request goes to the configured endpoint
override when truthy, else to the default endpoint. -/
theorem C7_openai_compatible (config : Config) (env : Option String)
    (hkey : getApiKey config none env ≠ "") :
    (∀ item rest b, item.b64_json = some b → b ≠ "" →
       generateWithOpenAICompatible config env (.ok (some (item :: rest)))
         = (.ok ("data:image/png;base64," ++ b), [.request (oaiEndpoint config)]))
    ∧ (∀ item rest u, item.b64_json.getD "" = "" → item.url = some u → u ≠ "" →
       generateWithOpenAICompatible config env (.ok (some (item :: rest)))
         = (.ok u, [.request (oaiEndpoint config)]))
    ∧ (∀ item rest, item.b64_json.getD "" = "" → item.url.getD "" = "" →
       generateWithOpenAICompatible config env (.ok (some (item :: rest)))
         = (.error ("Error", "No image data returned from API."), [.request (oaiEndpoint config)]))
    ∧ (∀ eps v, config.endpoints = some eps → eps.lookup config.apiProvider = some v → v ≠ "" →
        oaiEndpoint config = v)
    ∧ ((config.endpoints.bind (fun eps => eps.lookup config.apiProvider)).getD "" = "" →
        oaiEndpoint config = oaiDefaultEndpoint) := by
  refine ⟨?_, ?_, ?_, ?_, ?_⟩
  · intro item rest b hb hne
    unfold generateWithOpenAICompatible
    rw [if_neg hkey]
    simp [hb, hne]
  · intro item rest u hb hu hne
    unfold generateWithOpenAICompatible
    rw [if_neg hkey]
    simp [hb, hu, hne]
  · intro item rest hb hu
    unfold generateWithOpenAICompatible
    rw [if_neg hkey]
    simp [hb, hu]
  · intro eps v heps hv hne
    unfold oaiEndpoint
    simp [heps, hv, hne]
  · intro h
    unfold oaiEndpoint
    simp [h]

/-- Witness for C7: the spec's end-to-end scenario. -/
theorem C7_witness :
    generateWithOpenAICompatible cfgQiniu none (.ok (some [OAIItem.mk (some "QQ==") none]))
      = (.ok ("data:image/png;base64," ++ "QQ=="), [.request (oaiEndpoint cfgQiniu)])
    ∧ oaiEndpoint cfgQiniu = "https://proxy.example/v1" :=
  ⟨(C7_openai_compatible cfgQiniu none (by decide)).1 (OAIItem.mk (some "QQ==") none) [] "QQ=="
      rfl (by decide),
   (C7_openai_compatible cfgQiniu none (by decide)).2.2.2.1 [("qiniu", "https://proxy.example/v1")]
      "https://proxy.example/v1" rfl (by decide) (by decide)⟩

/-- C8: with a non-empty key and a configured CORS proxy, every request
URL of a ModelScope generation (submission and every poll) carries the
proxy as a prefix; and a fetch-level `TypeError: Failed to fetch` — on the
submission or on the first poll — surfaces as the distinct user-actionable
CORS-proxy hint, not as a generic failure. -/
theorem C8_modelscope_proxy (config : Config) (env : Option String)
    (polls : Nat → MSPollOutcome) (fuel fuel2 : Nat) (tid : String)
    (hkey : getApiKey config none env ≠ "") (htid : tid ≠ "")
    (hproxy : config.corsProxy.getD "" ≠ "") :
    (∀ e ∈ (generateWithModelScope config env (.ok (some tid)) polls fuel).2,
       ∀ v, e = NetEvent.request v → ∃ rest, v = config.corsProxy.getD "" ++ rest)
    ∧ (generateWithModelScope config env (.exn "TypeError" "Failed to fetch") polls fuel).1
        = some (.error ("Error", msCorsHint))
    ∧ (polls 0 = .exn "TypeError" "Failed to fetch" →
        (generateWithModelScope config env (.ok (some tid)) polls (fuel2 + 1)).1
          = some (.error ("Error", msCorsHint))) := by
  refine ⟨?_, ?_, ?_⟩
  · intro e he v hv
    rw [generateWithModelScope_poll config env tid polls fuel hkey htid] at he
    simp at he
    rcases he with h | h
    · rw [h] at hv
      injection hv with hv2
      refine ⟨msBaseUrl, ?_⟩
      rw [← hv2]
      unfold msSubmitUrlFor
      rw [if_pos hproxy]
    · rcases msPollLoop_events polls (msTaskUrlFor config tid) fuel 0 0 e h with h2 | h2
      · rw [h2] at hv
        exact absurd hv (by simp)
      · rw [h2] at hv
        injection hv with hv2
        refine ⟨msTaskBaseUrl tid, ?_⟩
        rw [← hv2]
        unfold msTaskUrlFor
        rw [if_pos hproxy]
  · unfold generateWithModelScope
    rw [if_neg hkey]
    simp [msCatch]
  · intro hpoll
    rw [generateWithModelScope_poll config env tid polls (fuel2 + 1) hkey htid]
    rw [msPollLoop_succ _ _ _ _ _ (by omega), hpoll]
    simp [msStepOf, msCatch]

/-- Witness for C8. -/
theorem C8_witness :
    (∀ e ∈ (generateWithModelScope cfgMSProxy none (.ok (some "t"))
        (fun _ => .exn "TypeError" "Failed to fetch") 1).2,
       ∀ v, e = NetEvent.request v → ∃ rest, v = cfgMSProxy.corsProxy.getD "" ++ rest)
    ∧ (generateWithModelScope cfgMSProxy none (.exn "TypeError" "Failed to fetch")
        (fun _ => .exn "TypeError" "Failed to fetch") 1).1
        = some (.error ("Error", msCorsHint))
    ∧ (generateWithModelScope cfgMSProxy none (.ok (some "t"))
        (fun _ => .exn "TypeError" "Failed to fetch") (0 + 1)).1
        = some (.error ("Error", msCorsHint)) := by
  have h := C8_modelscope_proxy cfgMSProxy none (fun _ => .exn "TypeError" "Failed to fetch")
    1 0 "t" (by decide) (by decide) (by decide)
  exact ⟨h.1, h.2.1, h.2.2 rfl⟩

/-- C9: formatting `"864x1152"` for the space-hosted adapter yields
`"864x1152 ( 3:4 )"`, whose aspect token is exactly the ratio the
synchronous Gemini adapter assigns to the same raw resolution. -/
theorem C9_roundtrip :
    formatResForHF "864x1152" = "864x1152 ( " ++ geminiAspect "864x1152" ++ " )"
    ∧ geminiAspect "864x1152" = "3:4" := by decide

/-- C10 counterexample: with the unrecognized provider tag `"foo"` and a
configured Gemini key, `generateImage` fails with the missing-key error,
whereas selecting `"gemini"` dispatches to the Gemini adapter with that
key — so an unrecognized tag does NOT behave exactly as if `'gemini'` were
selected, and it fails even though a Gemini credential resolves. -/
theorem C10_counterexample :
    generateImage cfgFooGem none = .err "Google Gemini API Key is missing."
    ∧ generateImage cfgGemG none = .gemini "G"
    ∧ generateImage cfgFooGem none ≠ generateImage cfgGemG none := by decide

/-- C10 amended: a provider tag outside the five explicit cases dispatches
through the switch's default (Gemini) branch — it is never rejected as
unknown — but the credential is resolved for that tag itself: the call
fails with `"Google Gemini API Key is missing."` exactly when the key
resolved for the unrecognized tag is empty, and otherwise invokes the
Gemini adapter with that key. -/
theorem C10_default_dispatch (config : Config) (env : Option String)
    (h : config.apiProvider ∉ ["huggingface", "modelscope", "nvidia", "aliyun", "qiniu"]) :
    generateImage config env =
      (if getApiKey config none env = "" then .err "Google Gemini API Key is missing."
       else .gemini (getApiKey config none env)) := by
  unfold generateImage
  simp only [List.mem_cons, List.mem_singleton, not_or] at h
  obtain ⟨h1, h2, h3, h4, h5⟩ := h
  simp [h1, h2, h3, h4, h5]

/-- Witness for C10. -/
theorem C10_witness :
    generateImage cfgFooGem none =
      (if getApiKey cfgFooGem none none = "" then .err "Google Gemini API Key is missing."
       else .gemini (getApiKey cfgFooGem none none)) :=
  C10_default_dispatch cfgFooGem none (by decide)
